import Mathlib

/-!
Shallow embedding of the iced-editor application (src/src/main.rs): the
editor state reducer `Editor.update`, the pure pieces of the view
(`Editor.positionText`, `Editor.statusText`), and the asynchronous file
helpers `pick_file`, `load_file`, `save_file` modelled as pure functions
of explicit dialog/filesystem oracles.
-/

namespace IcedEditor

/-- A filesystem path (`std::path::PathBuf`), modelled as its UTF-8 string. -/
abbrev Path := String

/-- The kind of an I/O error (`smol::io::ErrorKind`): an abstract platform
enum, modelled by the message its `Display` implementation produces. -/
structure IOErrorKind where
  description : String
deriving DecidableEq, Repr

/-- `Error` from main.rs: dialog cancelled by the user, or an I/O failure. -/
inductive Error where
  | DialogClosed : Error
  | IOFailed (kind : IOErrorKind) : Error
deriving DecidableEq, Repr

/-- The `iced` `text_editor::Content` buffer, modelled by its text and the
cursor position the widget reports (0-based line and column). -/
structure Content where
  text : String
  cursorLine : Nat
  cursorCol : Nat
deriving DecidableEq, Repr

/-- `text_editor::Content::new()`: an empty buffer. -/
def Content.new : Content :=
  { text := "", cursorLine := 0, cursorCol := 0 }

/-- `text_editor::Content::with_text(t)`: a buffer holding `t`, cursor at the start. -/
def Content.with_text (t : String) : Content :=
  { text := t, cursorLine := 0, cursorCol := 0 }

/-- `Content::cursor_position()`: the 0-based (line, column) pair. -/
def Content.cursor_position (c : Content) : Nat × Nat :=
  (c.cursorLine, c.cursorCol)

/-- A `text_editor::Action`: the splice it performs on the buffer is
delegated to the widget library, so an action is modelled as an arbitrary
buffer transformation. -/
structure Action where
  apply : Content → Content

/-- `Message` from main.rs. Rust `Result` is modelled as `Except`. -/
inductive Message where
  | Edit (action : Action) : Message
  | New : Message
  | Open : Message
  | FileOpened (result : Except Error (Path × String)) : Message
  | Save : Message
  | FileSaved (result : Except Error Path) : Message

/-- The `Task<Message>` returned by `Editor::update`, recorded symbolically:
either no task, or which async helper is spawned with which arguments. -/
inductive UpdateTask where
  | none : UpdateTask
  | performPickFile : UpdateTask
  | performSaveFile (path : Option Path) (text : String) : UpdateTask
deriving DecidableEq

/-- The `Editor` application state: optional path, buffer, optional last error. -/
structure Editor where
  path : Option Path
  content : Content
  error : Option Error
deriving DecidableEq

/-- `Editor::update`, translated branch by branch from main.rs.  The Rust
method mutates `self` and returns a task; here it returns the new state
paired with the task. -/
def Editor.update (s : Editor) (m : Message) : Editor × UpdateTask :=
  match m with
  | .Edit action =>
      ({ s with content := action.apply s.content, error := none }, .none)
  | .New =>
      ({ s with path := none, content := Content.new }, .none)
  | .Open =>
      (s, .performPickFile)
  | .Save =>
      (s, .performSaveFile s.path s.content.text)
  | .FileSaved (.ok path) =>
      ({ s with path := some path }, .none)
  | .FileSaved (.error error) =>
      ({ s with error := some error }, .none)
  | .FileOpened (.ok (path, contents)) =>
      ({ s with path := some path, content := Content.with_text contents }, .none)
  | .FileOpened (.error error) =>
      ({ s with error := some error }, .none)

/-- The cursor-position text of the status bar, from `Editor::view`:
`format!("{}:{}", line + 1, column + 1)` on `content.cursor_position()`. -/
def Editor.positionText (s : Editor) : String :=
  let (line, column) := s.content.cursor_position
  toString (line + 1) ++ ":" ++ toString (column + 1)

/-- The status text of the status bar, from `Editor::view`: the I/O error
message if the remembered error is `IOFailed`, else the path if set,
else "New file". -/
def Editor.statusText (s : Editor) : String :=
  match s.error with
  | some (Error.IOFailed error) => error.description
  | _ =>
      match s.path with
      | some path => path
      | none => "New file"

/-- `load_file`, with the filesystem read supplied as an oracle
(`smol::fs::read_to_string`): on success pairs the path with the contents,
on failure wraps the error kind in `Error::IOFailed`. -/
def load_file (readToString : Path → Except IOErrorKind String) (path : Path) :
    Except Error (Path × String) :=
  match readToString path with
  | .ok contents => .ok (path, contents)
  | .error kind => .error (Error.IOFailed kind)

/-- `pick_file`, with the dialog outcome supplied as an oracle
(`none` = dialog closed): fails with `DialogClosed` on cancel, otherwise
loads the picked file. -/
def pick_file (dialogPick : Option Path)
    (readToString : Path → Except IOErrorKind String) :
    Except Error (Path × String) :=
  match dialogPick with
  | none => .error Error.DialogClosed
  | some picked => load_file readToString picked

/-- `save_file`, with the save dialog and the filesystem write supplied as
oracles (`write p t = none` means the write succeeded): resolves the path
(asking the dialog when none is known, failing with `DialogClosed` on
cancel), then writes the text to it. -/
def save_file (dialogSave : Option Path)
    (write : Path → String → Option IOErrorKind)
    (path : Option Path) (text : String) : Except Error Path :=
  match path with
  | some p =>
      match write p text with
      | none => .ok p
      | some kind => .error (Error.IOFailed kind)
  | none =>
      match dialogSave with
      | none => .error Error.DialogClosed
      | some p =>
          match write p text with
          | none => .ok p
          | some kind => .error (Error.IOFailed kind)

/-- The new-state payload of an error-carrying message, used to state that
an update only ever stores the single error carried by the message. -/
def Message.errorPayload : Message → Option Error
  | .FileOpened (.error e) => some e
  | .FileSaved (.error e) => some e
  | _ => none

/-- Claim C1 counterexample: processing `Message::New` on a state that
remembers a dialog-closed error leaves the error in place, refuting the
claim that the error field is `None` after every one of the listed
messages. -/
theorem c1_error_cleared_counterexample :
    (Editor.update ⟨none, Content.new, some Error.DialogClosed⟩ Message.New).1.error
      ≠ none := by
  decide

/-- Claim C1 (amended): the remembered error is cleared by the next edit
action; `New`, a successful open, and a successful save leave the error
field unchanged rather than clearing it. -/
theorem c1_error_transient (s : Editor) (a : Action) (p : Path) (c : String) :
    (s.update (Message.Edit a)).1.error = none
    ∧ (s.update Message.New).1.error = s.error
    ∧ (s.update (Message.FileOpened (Except.ok (p, c)))).1.error = s.error
    ∧ (s.update (Message.FileSaved (Except.ok p))).1.error = s.error :=
  ⟨rfl, rfl, rfl, rfl⟩

/-- Claim C2 counterexample: cancelling the open dialog on an error-free
state sets the error field to `Some(DialogClosed)`, so the error field does
not equal that of the prior state. -/
theorem c2_cancel_unchanged_counterexample :
    (Editor.update ⟨none, Content.new, none⟩
        (Message.FileOpened (Except.error Error.DialogClosed))).1.error
      ≠ (⟨none, Content.new, none⟩ : Editor).error := by
  decide

/-- Claim C2 (amended): cancelling an open or save dialog leaves path and
buffer content unchanged, but records `Some(DialogClosed)` in the error
field rather than leaving it untouched. -/
theorem c2_cancel_frame (s : Editor) :
    ((s.update (Message.FileOpened (Except.error Error.DialogClosed))).1.path = s.path
      ∧ (s.update (Message.FileOpened (Except.error Error.DialogClosed))).1.content
          = s.content
      ∧ (s.update (Message.FileOpened (Except.error Error.DialogClosed))).1.error
          = some Error.DialogClosed)
    ∧ ((s.update (Message.FileSaved (Except.error Error.DialogClosed))).1.path = s.path
      ∧ (s.update (Message.FileSaved (Except.error Error.DialogClosed))).1.content
          = s.content
      ∧ (s.update (Message.FileSaved (Except.error Error.DialogClosed))).1.error
          = some Error.DialogClosed) :=
  ⟨⟨rfl, rfl, rfl⟩, ⟨rfl, rfl, rfl⟩⟩

/-- Claim C3 counterexample: an I/O failure on open leaves a previously set
path in place rather than clearing it to `None`. -/
theorem c3_open_failure_counterexample :
    (Editor.update ⟨some "old.txt", Content.new, none⟩
        (Message.FileOpened (Except.error (Error.IOFailed ⟨"not found"⟩)))).1.path
      ≠ none := by
  decide

/-- Claim C3 (amended): an I/O failure on open records the error and leaves
the buffer unchanged, but also leaves the path unchanged instead of
clearing it. -/
theorem c3_open_failure (s : Editor) (kind : IOErrorKind) :
    (s.update (Message.FileOpened (Except.error (Error.IOFailed kind)))).1.path = s.path
    ∧ (s.update (Message.FileOpened (Except.error (Error.IOFailed kind)))).1.error
        = some (Error.IOFailed kind)
    ∧ (s.update (Message.FileOpened (Except.error (Error.IOFailed kind)))).1.content
        = s.content :=
  ⟨rfl, rfl, rfl⟩

/-- Claim C4: if the buffer reports cursor position `(line, column)`
(0-based), the status-bar position text is the 1-based rendering
`toString (line+1) ++ ":" ++ toString (column+1)`. -/
theorem c4_cursor_display (s : Editor) (line column : Nat)
    (h : s.content.cursor_position = (line, column)) :
    s.positionText = toString (line + 1) ++ ":" ++ toString (column + 1) := by
  unfold Editor.positionText
  rw [h]

/-- Witness for C4 at a concrete state with cursor at 0-based (3, 7). -/
theorem c4_cursor_display_witness :
    Editor.positionText ⟨none, ⟨"ab", 3, 7⟩, none⟩
      = toString (3 + 1) ++ ":" ++ toString (7 + 1) :=
  c4_cursor_display ⟨none, ⟨"ab", 3, 7⟩, none⟩ 3 7 rfl

/-- Claim C5: the status text shows the I/O error message exactly when the
remembered error is `IOFailed`; when the error is absent or `DialogClosed`
the status text is the path if set, and "New file" otherwise. -/
theorem c5_status_error_display (s : Editor) :
    (∀ kind : IOErrorKind, s.error = some (Error.IOFailed kind) →
        s.statusText = kind.description)
    ∧ ((s.error = none ∨ s.error = some Error.DialogClosed) →
        s.statusText = match s.path with
          | some path => path
          | none => "New file") := by
  constructor
  · intro kind h
    simp [Editor.statusText, h]
  · intro h
    rcases h with h | h <;> simp [Editor.statusText, h]

/-- Witness for C5: an I/O failure message is shown verbatim, and with no
error the path is shown. -/
theorem c5_status_error_display_witness :
    Editor.statusText ⟨none, Content.new, some (Error.IOFailed ⟨"boom"⟩)⟩ = "boom"
    ∧ Editor.statusText ⟨some "a.rs", Content.new, none⟩ = "a.rs" :=
  ⟨(c5_status_error_display ⟨none, Content.new, some (Error.IOFailed ⟨"boom"⟩)⟩).1
      ⟨"boom"⟩ rfl,
    (c5_status_error_display ⟨some "a.rs", Content.new, none⟩).2 (Or.inl rfl)⟩

/-- Claim C6: `Message::New` resets the path to `None` and the buffer to the
empty content, and spawns no task. -/
theorem c6_new_resets (s : Editor) :
    (s.update Message.New).1.path = none
    ∧ (s.update Message.New).1.content = Content.new
    ∧ (s.update Message.New).1.content.text = ""
    ∧ (s.update Message.New).2 = UpdateTask.none :=
  ⟨rfl, rfl, rfl, rfl⟩

/-- Claim C7: `Save` spawns `save_file` with the current path and buffer
text; `save_file` writes to the given path when known, otherwise asks the
save dialog first (failing with `DialogClosed` on cancel) and then writes;
`FileSaved(Ok(path))` stores the path and `FileSaved(Err(e))` stores the
error. -/
theorem c7_save_flow (s : Editor) (dialogSave : Option Path)
    (write : Path → String → Option IOErrorKind) (p q : Path) (t : String)
    (e : Error) :
    (s.update Message.Save).2 = UpdateTask.performSaveFile s.path s.content.text
    ∧ save_file dialogSave write (some p) t
        = (match write p t with
            | none => Except.ok p
            | some kind => Except.error (Error.IOFailed kind))
    ∧ save_file none write none t = Except.error Error.DialogClosed
    ∧ save_file (some q) write none t
        = (match write q t with
            | none => Except.ok q
            | some kind => Except.error (Error.IOFailed kind))
    ∧ (s.update (Message.FileSaved (Except.ok p))).1.path = some p
    ∧ (s.update (Message.FileSaved (Except.error e))).1.error = some e :=
  ⟨rfl, rfl, rfl, rfl, rfl, rfl⟩

/-- Claim C8: a successful open replaces both path and buffer content with
the loaded file, `Open` spawns the pick-file task, and `pick_file` fails
with `DialogClosed` on cancel and otherwise loads the picked file's
contents. -/
theorem c8_open_flow (s : Editor) (p : Path) (c : String)
    (readToString : Path → Except IOErrorKind String) :
    (s.update (Message.FileOpened (Except.ok (p, c)))).1.path = some p
    ∧ (s.update (Message.FileOpened (Except.ok (p, c)))).1.content.text = c
    ∧ (s.update Message.Open).2 = UpdateTask.performPickFile
    ∧ pick_file none readToString = Except.error Error.DialogClosed
    ∧ pick_file (some p) readToString = load_file readToString p
    ∧ load_file readToString p
        = (match readToString p with
            | .ok contents => Except.ok (p, contents)
            | .error kind => Except.error (Error.IOFailed kind)) :=
  ⟨rfl, rfl, rfl, rfl, rfl, rfl⟩

/-- Claim C9: every message either leaves the error field unchanged, clears
it, or overwrites it with exactly the single error carried by the message;
no update retains more than one error. -/
theorem c9_single_error (s : Editor) (m : Message) :
    (s.update m).1.error = s.error
    ∨ (s.update m).1.error = none
    ∨ ∃ e : Error, m.errorPayload = some e ∧ (s.update m).1.error = some e := by
  cases m with
  | Edit a => exact Or.inr (Or.inl rfl)
  | New => exact Or.inl rfl
  | Open => exact Or.inl rfl
  | Save => exact Or.inl rfl
  | FileOpened r =>
      cases r with
      | ok v => cases v; exact Or.inl rfl
      | error e => exact Or.inr (Or.inr ⟨e, rfl, rfl⟩)
  | FileSaved r =>
      cases r with
      | ok v => exact Or.inl rfl
      | error e => exact Or.inr (Or.inr ⟨e, rfl, rfl⟩)

/-- Claim C10: a successful save updates only the path; buffer content and
error field are those of the prior state. -/
theorem c10_save_frame (s : Editor) (p : Path) :
    (s.update (Message.FileSaved (Except.ok p))).1.content = s.content
    ∧ (s.update (Message.FileSaved (Except.ok p))).1.error = s.error
    ∧ (s.update (Message.FileSaved (Except.ok p))).1.path = some p :=
  ⟨rfl, rfl, rfl⟩

end IcedEditor
